import Mathlib

/-!
Verification of the translation-resolution core of a gettext runtime
(`src/translate.ts`).  The resolver takes a message key, an optional plural
count, an optional grammatical context and a per-language dictionary, and
produces the display string, falling back to the untranslated text when no
translation is found.

Modelling conventions:
* JavaScript objects (the compiled dictionary, a translation table, a context
  map) are modelled as finite association lists over their own enumerable
  string keys; inherited `Object.prototype` properties are not part of the
  compiled dictionary format and are not modelled.
* JavaScript string falsiness: the only falsy string is `""`; `null` /
  `undefined` are modelled with `Option`; arrays and objects are always truthy.
* A thrown `Error` is modelled as `Except.error` carrying the message string;
  `console.warn` calls are collected in the returned warning list.
* The interpolation primitive is a field of `Language` (exactly as in the
  source, which calls `language.interpolate`), kept abstract.
-/

namespace Gettext

/-- Value stored under one context key of a context map: in the source,
`MessageContext` maps a context name to a plain string or a plural-form
list (`string | string[]`). -/
inductive CtxVal where
  | plain : String → CtxVal
  | plural : List String → CtxVal
deriving DecidableEq, Repr

/-- A context map: context key (the empty string meaning "no context") to the
form used under that context. -/
abbrev MessageContext := List (String × CtxVal)

/-- A translation entry (`Message` in the source): a plain string, a
plural-form list, or a context map. -/
inductive Message where
  | plain : String → Message
  | plural : List String → Message
  | ctxmap : MessageContext → Message
deriving DecidableEq, Repr

/-- A per-language translation table (`LanguageData`): trimmed msgid to entry. -/
abbrev LanguageData := List (String × Message)

/-- The language state the resolver reads (`Language` in the source):
`current` active language key, `silent` global warning-suppression flag,
`muted` muted language keys, `translations` the compiled dictionary, and the
interpolation primitive `interpolate(message, parameters, disableHtmlEscaping)`. -/
structure Language where
  current : String
  silent : Bool
  muted : List String
  translations : List (String × LanguageData)
  interpolate : String → List (String × String) → Bool → String

/-- The language family prefix `languageKey.split("_")[0]`: the characters
before the first underscore, the whole key when it has none (computed on the
character list so that it evaluates by reduction). -/
def familyOf (languageKey : String) : String :=
  String.mk (languageKey.toList.takeWhile (fun ch => ch != '_'))

/-- `String.prototype.trim`: leading and trailing whitespace removed
(computed on the character list so that it evaluates by reduction). -/
def jsTrim (s : String) : String :=
  String.mk (((s.toList.dropWhile Char.isWhitespace).reverse.dropWhile
    Char.isWhitespace).reverse)

namespace plurals

/-- Modelled from the spec: the repository's plural selector
(`plurals.getTranslationIndex`, file `src/plurals.ts`) is not among the
provided sources; only its call sites in `src/translate.ts` are.  Per §4.1 it
is a pure total map from (language key, count) to a zero-based plural-form
index, dispatching on the language family (region suffix before the first
underscore stripped); languages whose "one" category does not sit at index 0
(Arabic is the spec's named example) are represented; unrecognized language
keys fall back to the binary rule: index 0 for count 1, else index 1. -/
def getTranslationIndex (languageCode : String) (n : Int) : Nat :=
  let family := familyOf languageCode
  if family == "ar" then
    if n == 0 then 0
    else if n == 1 then 1
    else if n == 2 then 2
    else if 3 ≤ n % 100 ∧ n % 100 ≤ 10 then 3
    else if 11 ≤ n % 100 then 4
    else 5
  else if n == 1 then 0 else 1

end plurals

/-- Truthiness of a translation entry as a JavaScript value: the empty string
is the only falsy entry (arrays and objects are always truthy). -/
def truthyMsg : Message → Bool
  | Message.plain s => s != ""
  | Message.plural _ => true
  | Message.ctxmap _ => true

/-- Truthiness of the possibly-undefined `translated` variable. -/
def truthyM : Option Message → Bool
  | none => false
  | some m => truthyMsg m

/-- Truthiness of a context-map value. -/
def ctxValTruthy : CtxVal → Bool
  | CtxVal.plain s => s != ""
  | CtxVal.plural _ => true

/-- A context-map value regarded as a `Message` (the `translated` variable is
rebound to such a value after a context lookup or a void-context unwrap). -/
def CtxVal.toMessage : CtxVal → Message
  | CtxVal.plain s => Message.plain s
  | CtxVal.plural ls => Message.plural ls

/-- A string property key that is a canonical JavaScript array index
(decimal, no leading zeros). -/
def canonIndex (c : String) : Option Nat :=
  match c.toNat? with
  | some i => if toString i == c then some i else none
  | none => none

/-- JavaScript string coercion of a context-map value (only reachable through
numeric-key property access on a context map, outside the compiled
dictionary format). -/
def ctxValCoerce : CtxVal → String
  | CtxVal.plain s => s
  | CtxVal.plural ls => String.intercalate "," ls

/-- Property access `translated[context]` on an entry.  On a context map this
is the map lookup.  On a plural list a canonical numeric key indexes the
array; on a plain string it yields the character at that position (any other
key reads `undefined`, modelled as `none`; `"length"` and prototype keys are
outside the compiled dictionary format and not modelled). -/
def ctxGet : Message → String → Option CtxVal
  | Message.ctxmap m, c => List.lookup c m
  | Message.plural ls, c => (canonIndex c).bind (fun i => (ls[i]?).map CtxVal.plain)
  | Message.plain s, c =>
      (canonIndex c).bind (fun i => (s.toList[i]?).map (fun ch => CtxVal.plain (String.mk [ch])))

/-- Line 37 of the source:
`languageKey ? language.silent || language.muted.indexOf(languageKey) !== -1 : false`. -/
def computeSilent (silent : Bool) (muted : List String) (languageKey : String) : Bool :=
  if languageKey = "" then false else silent || muted.contains languageKey

/-- Line 40 of the source: the untranslated fallback, singular or plural:
`defaultPlural && plurals.getTranslationIndex(languageKey, n) > 0 ? defaultPlural : msgid`
(note the truthiness test: an empty `defaultPlural` behaves like an absent one). -/
def untranslatedFallback (msgid : String) (defaultPlural : Option String)
    (languageKey : String) (n : Int) : String :=
  match defaultPlural with
  | some dp => if dp ≠ "" ∧ 0 < plurals.getTranslationIndex languageKey n then dp else msgid
  | none => msgid

/-- Lines 48-49 of the source: locale resolution
`pluginTranslations[languageKey] || pluginTranslations[languageKey.split("_")[0]]`. -/
def resolveTable (translations : List (String × LanguageData)) (languageKey : String) :
    Option LanguageData :=
  match List.lookup languageKey translations with
  | some t => some t
  | none => List.lookup (familyOf languageKey) translations

/-- Lines 62-66 of the source: the table lookup, followed by the context
rebind `if (translated && context) translated = translated[context]`. -/
def lookupEntry (table : LanguageData) (msgid : String) (context : Option String) :
    Option Message :=
  match List.lookup msgid table with
  | none => none
  | some m =>
    match context with
    | some c =>
        if truthyMsg m && c != "" then (ctxGet m c).map CtxVal.toMessage else some m
    | none => some m

/-- Lines 79-83 of the source: unwrap the legacy void-context shape
`if (!(translated instanceof Array) && translated.hasOwnProperty(""))`.
Plain strings and plural lists have no own `""` property, so only a context
map can be unwrapped. -/
def unwrapVoidCtx : Message → Message
  | Message.ctxmap m =>
      match List.lookup "" m with
      | some v => v.toMessage
      | none => Message.ctxmap m
  | m => m

/-- The interpolation wrapper of lines 30-31:
`parameters ? language.interpolate(message, parameters, disableHtmlEscaping) : message`. -/
def interpOf (ipol : String → List (String × String) → Bool → String)
    (parameters : Option (List (String × String))) (disableHtmlEscaping : Bool)
    (message : String) : String :=
  match parameters with
  | some ps => ipol message ps disableHtmlEscaping
  | none => message

/-- Line 97 of the source, the malformed-plural failure message:
`msgid + " " + translationIndex + " " + language.current + " " + n`. -/
def pluralError (msgid : String) (idx : Nat) (current : String) (n : Int) : String :=
  msgid ++ " " ++ toString idx ++ " " ++ current ++ " " ++ toString n

/-- Line 54 of the source: `No translations found for ${languageKey}`. -/
def warnNoTranslations (languageKey : String) : String :=
  "No translations found for " ++ languageKey

/-- Lines 69-73 of the source: `Untranslated ${languageKey} key found: ${msgid}`
plus ` (with context: ${context})` when a (truthy) context was requested. -/
def warnUntranslated (languageKey msgid : String) (context : Option String) : String :=
  match context with
  | some c =>
      if c = "" then "Untranslated " ++ languageKey ++ " key found: " ++ msgid
      else "Untranslated " ++ languageKey ++ " key found: " ++ msgid
        ++ " (with context: " ++ c ++ ")"
  | none => "Untranslated " ++ languageKey ++ " key found: " ++ msgid

/-- Lines 95-99 of the source: index into the plural-form list, throwing on a
falsy (absent or empty) element:
`if (!translated[translationIndex]) throw new Error(...); return interp(translated[translationIndex], parameters)`. -/
def pluralResult (interp : String → String) (ls : List String) (idx : Nat)
    (msgid : String) (current : String) (n : Int) : Except String (String × List String) :=
  match ls[idx]? with
  | some s =>
      if s = "" then Except.error (pluralError msgid idx current n)
      else Except.ok (interp s, [])
  | none => Except.error (pluralError msgid idx current n)

/-- `getTranslation` of `src/translate.ts` (lines 17-100).  The result is the
returned display string together with the `console.warn` messages emitted
during the call, or `Except.error` with the thrown error message.  Parameter
order follows the source: msgid, n, context, defaultPlural, languageKey
(`none` meaning absent, replaced by `language.current`), parameters,
disableHtmlEscaping. -/
def getTranslation (language : Language) (msgid : String) (n : Int)
    (context : Option String) (defaultPlural : Option String)
    (languageKeyOpt : Option String) (parameters : Option (List (String × String)))
    (disableHtmlEscaping : Bool) : Except String (String × List String) :=
  let languageKey := Option.getD languageKeyOpt language.current
  let interp := interpOf language.interpolate parameters disableHtmlEscaping
  -- `if (!msgid) return "";` — the only falsy string is the empty string.
  if msgid = "" then Except.ok ("", [])
  else
    let silent := computeSilent language.silent language.muted languageKey
    let untranslated := untranslatedFallback msgid defaultPlural languageKey n
    match resolveTable language.translations languageKey with
    | none =>
        Except.ok (interp untranslated,
          if silent then [] else [warnNoTranslations languageKey])
    | some table =>
      match lookupEntry table (jsTrim msgid) context with
      | none =>
          Except.ok (interp untranslated,
            if silent then [] else [warnUntranslated languageKey (jsTrim msgid) context])
      | some m =>
        if truthyMsg m then
          match unwrapVoidCtx m with
          | Message.plain s => Except.ok (interp s, [])
          | Message.plural ls =>
              -- `if (translated.length === 1 && n === 1) translationIndex = 0;`
              pluralResult interp ls
                (if ls.length == 1 && n == 1 then 0
                 else plurals.getTranslationIndex languageKey n)
                (jsTrim msgid) language.current n
          | Message.ctxmap cm =>
              -- A context map reaching the plural stage has no `length`
              -- property, so the single-element override never applies; the
              -- numeric index is read as a string property key.
              match List.lookup (toString (plurals.getTranslationIndex languageKey n)) cm with
              | some v =>
                  if ctxValTruthy v then Except.ok (interp (ctxValCoerce v), [])
                  else Except.error (pluralError (jsTrim msgid)
                    (plurals.getTranslationIndex languageKey n) language.current n)
              | none => Except.error (pluralError (jsTrim msgid)
                  (plurals.getTranslationIndex languageKey n) language.current n)
        else
          Except.ok (interp untranslated,
            if silent then [] else [warnUntranslated languageKey (jsTrim msgid) context])

/-! ## Concrete fixtures used by witnesses and counterexamples -/

/-- An interpolator that returns the message unchanged (the fixtures request
no parameters, so the interpolator is never consulted). -/
def idInterp : String → List (String × String) → Bool → String :=
  fun message _ _ => message

/-- A language state with an empty dictionary, current language `"xx"`. -/
def exLangEmpty : Language :=
  Language.mk "xx" false [] [] idInterp

/-! ## Claims -/

/-- C4: for an empty msgid, `getTranslation` returns the empty string at
once, with no warning and no interpolation, whatever the count, context,
default plural, language-key override, parameters and escaping flag are. -/
theorem getTranslation_empty_msgid (language : Language) (n : Int)
    (context : Option String) (defaultPlural : Option String)
    (languageKeyOpt : Option String) (parameters : Option (List (String × String)))
    (disableHtmlEscaping : Bool) :
    getTranslation language "" n context defaultPlural languageKeyOpt parameters
      disableHtmlEscaping = Except.ok ("", []) := rfl

/-- C5: when the requested language key is absent from the dictionary but its
family code (the part before the first underscore) is present, `getTranslation`
resolves against the family table: the resolved table is the family table,
and a plain translation found there under the trimmed msgid is returned. -/
theorem getTranslation_family_fallback (language : Language) (msgid : String)
    (n : Int) (defaultPlural : Option String) (languageKeyOpt : Option String)
    (parameters : Option (List (String × String))) (disableHtmlEscaping : Bool)
    (languageKey : String) (table : LanguageData) (s : String)
    (hk : Option.getD languageKeyOpt language.current = languageKey)
    (hne : msgid ≠ "")
    (h1 : List.lookup languageKey language.translations = none)
    (h2 : List.lookup (familyOf languageKey) language.translations
      = some table)
    (h3 : List.lookup (jsTrim msgid) table = some (Message.plain s))
    (hs : s ≠ "") :
    resolveTable language.translations languageKey = some table
    ∧ getTranslation language msgid n none defaultPlural languageKeyOpt parameters
        disableHtmlEscaping
      = Except.ok (interpOf language.interpolate parameters disableHtmlEscaping s, []) := by
  have hres : resolveTable language.translations languageKey = some table := by
    unfold resolveTable
    rw [h1, h2]
  have hle : lookupEntry table (jsTrim msgid) none = some (Message.plain s) := by
    unfold lookupEntry
    rw [h3]
  refine ⟨hres, ?_⟩
  have hst : truthyMsg (Message.plain s) = true := by
    simp [truthyMsg, hs]
  simp only [getTranslation, hk, if_neg hne, hres, hle, hst, if_true, unwrapVoidCtx]

/-- Witness for C5: dictionary holding `"de"` but not `"de_DE"`; requesting
`"de_DE"` resolves `"Hello"` against the `"de"` table. -/
theorem getTranslation_family_fallback_witness :
    getTranslation
      (Language.mk "de_DE" false [] [("de", [("Hello", Message.plain "Hallo")])]
        idInterp) "Hello" 1 none none none none false
    = Except.ok ("Hallo", []) :=
  (getTranslation_family_fallback
    (Language.mk "de_DE" false [] [("de", [("Hello", Message.plain "Hallo")])] idInterp)
    "Hello" 1 none none none false "de_DE" [("Hello", Message.plain "Hallo")] "Hallo"
    rfl (by decide) rfl rfl rfl (by decide)).2

/-- C1: for a non-empty msgid, when no language table matches (neither the
key nor its family) or the key (with the requested context) is missing from
the resolved table, `getTranslation` returns `Except.ok` — never a thrown
error — carrying the interpolated untranslated fallback, and emits exactly
one warning unless silenced. -/
theorem getTranslation_missing_fallback (language : Language) (msgid : String)
    (n : Int) (context : Option String) (defaultPlural : Option String)
    (languageKeyOpt : Option String) (parameters : Option (List (String × String)))
    (disableHtmlEscaping : Bool) (languageKey : String)
    (hk : Option.getD languageKeyOpt language.current = languageKey)
    (hne : msgid ≠ "") :
    (resolveTable language.translations languageKey = none →
      getTranslation language msgid n context defaultPlural languageKeyOpt parameters
        disableHtmlEscaping
      = Except.ok (interpOf language.interpolate parameters disableHtmlEscaping
          (untranslatedFallback msgid defaultPlural languageKey n),
        if computeSilent language.silent language.muted languageKey then []
        else [warnNoTranslations languageKey]))
    ∧ (∀ table, resolveTable language.translations languageKey = some table →
        lookupEntry table (jsTrim msgid) context = none →
        getTranslation language msgid n context defaultPlural languageKeyOpt parameters
          disableHtmlEscaping
        = Except.ok (interpOf language.interpolate parameters disableHtmlEscaping
            (untranslatedFallback msgid defaultPlural languageKey n),
          if computeSilent language.silent language.muted languageKey then []
          else [warnUntranslated languageKey (jsTrim msgid) context])) := by
  constructor
  · intro hres
    simp only [getTranslation, hk, if_neg hne, hres]
  · intro table hres hle
    simp only [getTranslation, hk, if_neg hne, hres, hle]

/-- Witness for C1 at a concrete input: empty dictionary, language `"xx"`,
not silenced; msgid `"Hello"` falls back to `"Hello"` with one warning. -/
theorem getTranslation_missing_fallback_witness :
    getTranslation exLangEmpty "Hello" 1 none none none none false
    = Except.ok ("Hello", ["No translations found for xx"]) :=
  (getTranslation_missing_fallback exLangEmpty "Hello" 1 none none none none false
    "xx" rfl (by decide)).1 rfl

/-- C10: the silent flag and the muted-language list influence only the
diagnostic warnings: two calls identical except for those two settings
return the same display string and fail (throw) in exactly the same cases. -/
theorem getTranslation_silent_noninterference (current : String) (s1 s2 : Bool)
    (m1 m2 : List String) (translations : List (String × LanguageData))
    (ipol : String → List (String × String) → Bool → String) (msgid : String)
    (n : Int) (context : Option String) (defaultPlural : Option String)
    (languageKeyOpt : Option String) (parameters : Option (List (String × String)))
    (disableHtmlEscaping : Bool) :
    Except.map Prod.fst (getTranslation (Language.mk current s1 m1 translations ipol)
      msgid n context defaultPlural languageKeyOpt parameters disableHtmlEscaping)
    = Except.map Prod.fst (getTranslation (Language.mk current s2 m2 translations ipol)
      msgid n context defaultPlural languageKeyOpt parameters disableHtmlEscaping) := by
  by_cases hm : msgid = ""
  · subst hm
    rfl
  · simp only [getTranslation]
    rw [if_neg hm, if_neg hm]
    cases hr : resolveTable translations (Option.getD languageKeyOpt current) with
    | none => rfl
    | some table =>
      dsimp only
      cases hl : lookupEntry table (jsTrim msgid) context with
      | none => rfl
      | some m =>
        dsimp only
        cases htm : truthyMsg m with
        | false => rfl
        | true => cases hu : unwrapVoidCtx m <;> simp

/-- C2: when the resolved entry is a plural-form list whose element at the
computed plural index is absent or empty (falsy), `getTranslation` throws:
it returns `Except.error` with the message naming the trimmed key, the
computed index, the current language and the count — for every silent flag
and muted-language list (both are quantified and absent from the
conclusion), never recovered into a fallback string. -/
theorem getTranslation_malformed_plural_error (language : Language) (msgid : String)
    (n : Int) (context : Option String) (defaultPlural : Option String)
    (languageKeyOpt : Option String) (parameters : Option (List (String × String)))
    (disableHtmlEscaping : Bool) (languageKey : String) (table : LanguageData)
    (m : Message) (ls : List String) (idx : Nat)
    (hk : Option.getD languageKeyOpt language.current = languageKey)
    (hne : msgid ≠ "")
    (hres : resolveTable language.translations languageKey = some table)
    (hlook : lookupEntry table (jsTrim msgid) context = some m)
    (htru : truthyMsg m = true)
    (hun : unwrapVoidCtx m = Message.plural ls)
    (hidx : (if ls.length == 1 && n == 1 then 0
             else plurals.getTranslationIndex languageKey n) = idx)
    (hfal : ls[idx]? = none ∨ ls[idx]? = some "") :
    getTranslation language msgid n context defaultPlural languageKeyOpt parameters
      disableHtmlEscaping
    = Except.error (pluralError (jsTrim msgid) idx language.current n) := by
  simp only [getTranslation, hk, if_neg hne, hres, hlook, htru, if_true, hun, hidx]
  rcases hfal with h | h <;> simp [pluralResult, h]

/-- Witness for C2: the `"fr"` table maps `"Hello"` to a single plural form;
count 5 computes index 1, which is absent, and the call throws even though
the language is silenced (`silent = true`) and muted. -/
theorem getTranslation_malformed_plural_error_witness :
    getTranslation (Language.mk "fr" true ["fr"]
      [("fr", [("Hello", Message.plural ["Bonjour"])])] idInterp)
      "Hello" 5 none none none none false
    = Except.error "Hello 1 fr 5" :=
  getTranslation_malformed_plural_error
    (Language.mk "fr" true ["fr"] [("fr", [("Hello", Message.plural ["Bonjour"])])]
      idInterp)
    "Hello" 5 none none none none false "fr" [("Hello", Message.plural ["Bonjour"])]
    (Message.plural ["Bonjour"]) ["Bonjour"] 1 rfl (by decide) rfl rfl rfl rfl rfl
    (Or.inl rfl)

/-- C3 fails as stated for the empty language key: line 37 of the source
computes `silent` as `false` whenever the language key is falsy (empty),
even with `settings.silent` set, and the missing-language warning is then
emitted despite `silent = true`. -/
theorem computeSilent_empty_key_cex :
    computeSilent true [] "" ≠ (true || ([] : List String).contains "")
    ∧ getTranslation (Language.mk "xx" true [] [] idInterp) "Hello" 1 none none
        (some "") none false
      = Except.ok ("Hello", ["No translations found for "]) :=
  ⟨by decide, rfl⟩

/-- C3 amended: warnings are suppressed exactly when `settings.silent` is set
or the resolved language key is a member of the muted list — for every
non-empty language key; for the empty language key the computed flag is
always `false`, so warnings are never suppressed there. -/
theorem computeSilent_characterization (silent : Bool) (muted : List String)
    (languageKey : String) :
    (languageKey ≠ "" → computeSilent silent muted languageKey
      = (silent || muted.contains languageKey))
    ∧ computeSilent silent muted "" = false := by
  constructor
  · intro h
    simp [computeSilent, h]
  · simp [computeSilent]

/-- Witness for C3 amended at language key `"fr_FR"` with the silent flag set. -/
theorem computeSilent_characterization_witness :
    computeSilent true [] "fr_FR" = (true || ([] : List String).contains "fr_FR") :=
  (computeSilent_characterization true [] "fr_FR").1 (by decide)

/-- C6 fails as stated for an empty `defaultPlural`: line 40 of the source
tests the truthiness of `defaultPlural`, so a provided-but-empty default
plural is ignored even when the plural index is positive.  With
`defaultPlural = ""` and count 2 (index 1 > 0) the claim requires the
(interpolated) default plural `""` to be returned, but the original msgid
`"Hello"` comes back. -/
theorem untranslated_empty_defaultPlural_cex :
    getTranslation exLangEmpty "Hello" 2 none (some "") none none false
    = Except.ok ("Hello", ["No translations found for xx"])
    ∧ 0 < plurals.getTranslationIndex "xx" 2
    ∧ ("Hello" : String) ≠ "" :=
  ⟨rfl, by decide, by decide⟩

/-- C6 amended: whenever no translation is found (no language table, or the
key — after the requested-context rebind — resolves to nothing or to a falsy
entry), the value returned is the interpolation of `defaultPlural` when it
is provided, non-empty, and the plural index for (language key, count) is
positive, and the interpolation of the original msgid otherwise. -/
theorem getTranslation_untranslated_choice (language : Language) (msgid : String)
    (n : Int) (context : Option String) (defaultPlural : Option String)
    (languageKeyOpt : Option String) (parameters : Option (List (String × String)))
    (disableHtmlEscaping : Bool) (languageKey : String)
    (hk : Option.getD languageKeyOpt language.current = languageKey)
    (hne : msgid ≠ "")
    (hnf : truthyM ((resolveTable language.translations languageKey).bind
      (fun table => lookupEntry table (jsTrim msgid) context)) = false) :
    Except.map Prod.fst (getTranslation language msgid n context defaultPlural
      languageKeyOpt parameters disableHtmlEscaping)
    = Except.ok (interpOf language.interpolate parameters disableHtmlEscaping
        (match defaultPlural with
         | some dp => if dp ≠ "" ∧ 0 < plurals.getTranslationIndex languageKey n
             then dp else msgid
         | none => msgid)) := by
  have huf : (match defaultPlural with
      | some dp => if dp ≠ "" ∧ 0 < plurals.getTranslationIndex languageKey n
          then dp else msgid
      | none => msgid) = untranslatedFallback msgid defaultPlural languageKey n := rfl
  rw [huf]
  simp only [getTranslation, hk, if_neg hne]
  cases hr : resolveTable language.translations languageKey with
  | none => rfl
  | some table =>
    rw [hr] at hnf
    dsimp only
    cases hl : lookupEntry table (jsTrim msgid) context with
    | none => rfl
    | some m =>
      simp only [Option.bind] at hnf
      rw [hl] at hnf
      simp only [truthyM] at hnf
      dsimp only
      simp only [hnf]
      rfl

/-- Witness for C6 amended: empty dictionary, non-empty default plural and
count 2 — the default plural is returned. -/
theorem getTranslation_untranslated_choice_witness :
    Except.map Prod.fst (getTranslation exLangEmpty "Hi" 2 none (some "Plural") none
      none false) = Except.ok "Plural" :=
  getTranslation_untranslated_choice exLangEmpty "Hi" 2 none (some "Plural") none none
    false "xx" rfl (by decide) rfl

/-- A language state whose `"en"` table stores `"Hello"` with a void-context
form and a `"shelf"` context form. -/
def exLangCtx : Language :=
  Language.mk "en" false []
    [("en", [("Hello", Message.ctxmap
      [("", CtxVal.plain "plain form"), ("shelf", CtxVal.plain "shelf form")])])]
    idInterp

/-- C7: an entry that maps the void context key `""` to one form and a named
context key to another resolves to the void form when no context is
requested (the legacy void-context shape is unwrapped; the entry is not a
plural list) and to the named form when that context is requested. -/
theorem getTranslation_context_disambiguation (language : Language) (msgid : String)
    (n : Int) (defaultPlural : Option String) (languageKeyOpt : Option String)
    (parameters : Option (List (String × String))) (disableHtmlEscaping : Bool)
    (languageKey : String) (table : LanguageData) (cmap : MessageContext)
    (c s0 s1 : String)
    (hk : Option.getD languageKeyOpt language.current = languageKey)
    (hne : msgid ≠ "")
    (hres : resolveTable language.translations languageKey = some table)
    (hent : List.lookup (jsTrim msgid) table = some (Message.ctxmap cmap))
    (hvoid : List.lookup "" cmap = some (CtxVal.plain s0))
    (hctx : List.lookup c cmap = some (CtxVal.plain s1))
    (hc : c ≠ "") (hs1 : s1 ≠ "") :
    getTranslation language msgid n none defaultPlural languageKeyOpt parameters
      disableHtmlEscaping
    = Except.ok (interpOf language.interpolate parameters disableHtmlEscaping s0, [])
    ∧ getTranslation language msgid n (some c) defaultPlural languageKeyOpt parameters
        disableHtmlEscaping
    = Except.ok (interpOf language.interpolate parameters disableHtmlEscaping s1, []) := by
  have hle0 : lookupEntry table (jsTrim msgid) none = some (Message.ctxmap cmap) := by
    simp only [lookupEntry, hent]
  have hle1 : lookupEntry table (jsTrim msgid) (some c) = some (Message.plain s1) := by
    simp only [lookupEntry, hent]
    simp [truthyMsg, hc, ctxGet, hctx, CtxVal.toMessage]
  constructor
  · simp only [getTranslation, hk, if_neg hne, hres, hle0]
    simp [truthyMsg, unwrapVoidCtx, hvoid, CtxVal.toMessage]
  · simp only [getTranslation, hk, if_neg hne, hres, hle1]
    have hts : truthyMsg (Message.plain s1) = true := by
      simp [truthyMsg, hs1]
    simp [hts, unwrapVoidCtx]

/-- Witness for C7 on the `{ "": "plain form", "shelf": "shelf form" }` entry. -/
theorem getTranslation_context_disambiguation_witness :
    getTranslation exLangCtx "Hello" 1 none none none none false
      = Except.ok ("plain form", [])
    ∧ getTranslation exLangCtx "Hello" 1 (some "shelf") none none none false
      = Except.ok ("shelf form", []) :=
  getTranslation_context_disambiguation exLangCtx "Hello" 1 none none none false
    "en"
    [("Hello", Message.ctxmap
      [("", CtxVal.plain "plain form"), ("shelf", CtxVal.plain "shelf form")])]
    [("", CtxVal.plain "plain form"), ("shelf", CtxVal.plain "shelf form")]
    "shelf" "plain form" "shelf form"
    rfl (by decide) rfl rfl rfl rfl (by decide) (by decide)

/-- A language state for a language whose plural rule puts the "one" category
at a non-zero index (Arabic in the modelled selector), with a single-element
plural entry. -/
def exLangAr : Language :=
  Language.mk "ar" false [] [("ar", [("Hello", Message.plural ["only form"])])] idInterp

/-- C8: a resolved single-element plural-form list with count 1 returns that
single element — the index is forced to 0 whatever index the language's
plural selector would compute; for any other count the selector's index is
used unchanged. -/
theorem getTranslation_single_plural_override (language : Language) (msgid : String)
    (n : Int) (context : Option String) (defaultPlural : Option String)
    (languageKeyOpt : Option String) (parameters : Option (List (String × String)))
    (disableHtmlEscaping : Bool) (languageKey : String) (table : LanguageData)
    (s : String)
    (hk : Option.getD languageKeyOpt language.current = languageKey)
    (hne : msgid ≠ "")
    (hres : resolveTable language.translations languageKey = some table)
    (hlook : lookupEntry table (jsTrim msgid) context = some (Message.plural [s]))
    (hs : s ≠ "") :
    (n = 1 → getTranslation language msgid n context defaultPlural languageKeyOpt
        parameters disableHtmlEscaping
      = Except.ok (interpOf language.interpolate parameters disableHtmlEscaping s, []))
    ∧ (n ≠ 1 → getTranslation language msgid n context defaultPlural languageKeyOpt
        parameters disableHtmlEscaping
      = pluralResult (interpOf language.interpolate parameters disableHtmlEscaping) [s]
          (plurals.getTranslationIndex languageKey n) (jsTrim msgid)
          language.current n) := by
  constructor
  · intro h1
    subst h1
    simp only [getTranslation, hk, if_neg hne, hres, hlook]
    simp [truthyMsg, unwrapVoidCtx, pluralResult, hs]
  · intro h1
    simp only [getTranslation, hk, if_neg hne, hres, hlook]
    simp [truthyMsg, unwrapVoidCtx]
    rw [if_neg h1]

/-- Witness for C8: in the modelled selector Arabic maps count 1 to plural
index 1, yet the single-element entry `["only form"]` with count 1 resolves
to `"only form"`. -/
theorem getTranslation_single_plural_override_witness :
    plurals.getTranslationIndex "ar" 1 = 1
    ∧ getTranslation exLangAr "Hello" 1 none none none none false
      = Except.ok ("only form", []) :=
  ⟨rfl, (getTranslation_single_plural_override exLangAr "Hello" 1 none none none none
    false "ar" [("Hello", Message.plural ["only form"])] "only form"
    rfl (by decide) rfl rfl (by decide)).1 rfl⟩

/-- A language state whose `"en"` table stores `"Hello"` only under the
`"shelf"` context. -/
def exLangEn : Language :=
  Language.mk "en" false []
    [("en", [("Hello", Message.ctxmap [("shelf", CtxVal.plain "S")])])] idInterp

/-- C9 fails as stated: the untranslated fallback is computed from the
original msgid BEFORE trimming (line 40 precedes the trim on line 60), so
when the table contains the trimmed key but resolution still falls back —
here the requested context is absent from the entry — the untrimmed and the
trimmed msgid return different strings. -/
theorem getTranslation_trim_cex :
    getTranslation exLangEn "  Hello  " 1 (some "other") none none none false
      = Except.ok ("  Hello  ",
        ["Untranslated en key found: Hello (with context: other)"])
    ∧ getTranslation exLangEn "Hello" 1 (some "other") none none none false
      = Except.ok ("Hello",
        ["Untranslated en key found: Hello (with context: other)"])
    ∧ ("  Hello  " : String) ≠ "Hello" :=
  ⟨rfl, rfl, by decide⟩

/-- A language state whose `"en"` table maps `"Hello"` to the plain string
`"Hi"`. -/
def exLangHi : Language :=
  Language.mk "en" false [] [("en", [("Hello", Message.plain "Hi")])] idInterp

/-- C9 amended: when the trimmed key (after the requested-context rebind)
resolves to a truthy entry, a msgid with surrounding whitespace behaves
exactly as the already-trimmed msgid: the full results — value, warnings,
thrown errors — coincide.  (When resolution falls back to the untranslated
string instead, the original untrimmed msgid is interpolated, so the
results may differ; see the counterexample.) -/
theorem getTranslation_trim_equiv (language : Language) (msgid : String) (n : Int)
    (context : Option String) (defaultPlural : Option String)
    (languageKeyOpt : Option String) (parameters : Option (List (String × String)))
    (disableHtmlEscaping : Bool) (languageKey : String) (table : LanguageData)
    (m : Message)
    (hk : Option.getD languageKeyOpt language.current = languageKey)
    (hne : jsTrim msgid ≠ "")
    (htrim : jsTrim (jsTrim msgid) = jsTrim msgid)
    (hres : resolveTable language.translations languageKey = some table)
    (hlook : lookupEntry table (jsTrim msgid) context = some m)
    (htru : truthyMsg m = true) :
    getTranslation language msgid n context defaultPlural languageKeyOpt parameters
      disableHtmlEscaping
    = getTranslation language (jsTrim msgid) n context defaultPlural languageKeyOpt
        parameters disableHtmlEscaping := by
  have hmne : msgid ≠ "" := by
    intro h
    apply hne
    rw [h]
    rfl
  simp [getTranslation, hk, hmne, hne, htrim, hres, hlook, htru]

/-- Witness for C9 amended: `"  Hello  "` and `"Hello"` resolve to the same
result against a table keyed by `"Hello"`. -/
theorem getTranslation_trim_equiv_witness :
    getTranslation exLangHi "  Hello  " 1 none none none none false
    = getTranslation exLangHi "Hello" 1 none none none none false :=
  getTranslation_trim_equiv exLangHi "  Hello  " 1 none none none none false "en"
    [("Hello", Message.plain "Hi")] (Message.plain "Hi")
    rfl (by decide) rfl rfl rfl rfl

end Gettext
